import Mathlib

/-!
Verification of the coordinate-representation core in
`include/boost/astronomy/coordinate/base_representation.hpp`.

The header defines one class template `base_representation<DimensionCount,
Type>` holding a `boost::geometry::model::point<double, DimensionCount, Type>`
and canonical-space algebra operations (`cross`, `dot`, `unit_vector`,
`to_representation`, `sum`, `mean`, `magnitude`, `get_point`).  Every pairwise
operation first projects both operands into a fixed 3-D cartesian canonical
space via `boost::geometry::transform` and then computes there; the result is
handed to the caller-chosen `ReturnType`'s constructor.

Embedding choices:
- `double` is modelled as `ℝ`.
- A native point is `Fin D → ℝ`; the coordinate-system tag `Type` acts only
  through the external `boost::geometry::transform` into canonical cartesian
  space, so the embedding carries that transform as an index `toCart` of the
  structure, quantified over in every theorem (any system, any dimension).
- Operations that in C++ construct a `ReturnType` from a canonical cartesian
  point return that constructor argument here, since the header passes the
  identical point to the constructor regardless of `ReturnType`.
-/

namespace Astronomy

noncomputable section

/-- A canonical 3-D cartesian point: the transient working value
`boost::geometry::model::point<double, 3, cs::cartesian>` of the header,
with `double` modelled as `ℝ`. -/
@[ext]
structure Cart3 where
  x : ℝ
  y : ℝ
  z : ℝ

/-- The geometry kernel's `boost::geometry::dot_product` on two
3-D cartesian points. -/
def dot_product (p q : Cart3) : ℝ :=
  p.x * q.x + p.y * q.y + p.z * q.z

/-- The geometry kernel's `boost::geometry::cross_product` on two
3-D cartesian points. -/
def cross_product (p q : Cart3) : Cart3 :=
  ⟨p.y * q.z - p.z * q.y, p.z * q.x - p.x * q.z, p.x * q.y - p.y * q.x⟩

/-- `base_representation<DimensionCount, Type>`: stores a native point of
`DimensionCount` real coordinates.  The system tag matters only through the
external transform to canonical cartesian space, carried here as `toCart`. -/
structure base_representation (D : ℕ) (toCart : (Fin D → ℝ) → Cart3) where
  point : Fin D → ℝ

namespace base_representation

variable {D D' : ℕ} {f : (Fin D → ℝ) → Cart3} {g : (Fin D' → ℝ) → Cart3}

/-- `get_point()`: read-only access to the native point. -/
def get_point (a : base_representation D f) : Fin D → ℝ :=
  a.point

/-- `magnitude()`, exactly as the header has it: `result` is initialised to
`0.0`, the accumulation loop over the components is present only as disabled
commentary, and `std::sqrt(result)` is returned.  (The unused conversion of
`this->point` into `tempPoint` is side-effect-free and elided.) -/
def magnitude (a : base_representation D f) : ℝ :=
  let result : ℝ := 0
  Real.sqrt result

/-- `cross<ReturnType, Representation>(other)`: both operands are transformed
into cartesian system and the cross product of the two cartesian vectors is
the point handed to `ReturnType`'s constructor. -/
def cross (a : base_representation D f) (b : base_representation D' g) : Cart3 :=
  cross_product (f a.point) (g b.get_point)

/-- `dot<Representation>(other)`: both operands are transformed into cartesian
system and the scalar dot product of the two cartesian vectors is returned. -/
def dot (a : base_representation D f) (b : base_representation D' g) : ℝ :=
  dot_product (f a.point) (g b.get_point)

/-- `unit_vector<ReturnType>()`: the operand's cartesian vector divided
component-wise by `this->magnitude()`, handed to `ReturnType`'s
constructor.  (Division by a zero magnitude follows Lean's `x / 0 = 0`
convention; the theorems below never depend on the quotient's value.) -/
def unit_vector (a : base_representation D f) : Cart3 :=
  let mag := a.magnitude
  let tempPoint := f a.point
  ⟨tempPoint.x / mag, tempPoint.y / mag, tempPoint.z / mag⟩

/-- `to_representation<ReturnType>()`: `ReturnType(this->point)` — an identity
pass of the native point to the target constructor, with no canonical
computation; the embedding returns the constructor argument. -/
def to_representation (a : base_representation D f) : Fin D → ℝ :=
  a.point

/-- `sum<ReturnType, Representation>(other)`: both operands are transformed
into cartesian system and their component-wise sum is the point handed to
`ReturnType`'s constructor. -/
def sum (a : base_representation D f) (b : base_representation D' g) : Cart3 :=
  let tempPoint1 := f a.point
  let tempPoint2 := g b.get_point
  ⟨tempPoint1.x + tempPoint2.x, tempPoint1.y + tempPoint2.y,
    tempPoint1.z + tempPoint2.z⟩

/-- `mean<ReturnType, Representation>(other)`: both operands are transformed
into cartesian system and the component-wise half of their sum is the point
handed to `ReturnType`'s constructor. -/
def mean (a : base_representation D f) (b : base_representation D' g) : Cart3 :=
  let tempPoint1 := f a.point
  let tempPoint2 := g b.get_point
  ⟨(tempPoint1.x + tempPoint2.x) / 2, (tempPoint1.y + tempPoint2.y) / 2,
    (tempPoint1.z + tempPoint2.z) / 2⟩

end base_representation

/-- The transform of a 3-D cartesian native point into the canonical cartesian
space is the identity on coordinates. -/
def cartesianToCanonical (p : Fin 3 → ℝ) : Cart3 :=
  ⟨p 0, p 1, p 2⟩

/-- A cartesian representation, as constructed from a canonical cartesian
point (the constructor contract required of concrete representation types). -/
def mkCartesian (c : Cart3) : base_representation 3 cartesianToCanonical :=
  ⟨![c.x, c.y, c.z]⟩

/-- The cartesian representation with canonical point `(1, 0, 0)`. -/
def unitX : base_representation 3 cartesianToCanonical :=
  ⟨![1, 0, 0]⟩

/-- The cartesian representation with canonical point `(0, 1, 0)`. -/
def unitY : base_representation 3 cartesianToCanonical :=
  ⟨![0, 1, 0]⟩

/-- Modelled from the spec: the intended `magnitude` — the square root of the
sum of the squares of the three canonical cartesian components — which the
header's dead accumulation loop was meant to compute. -/
def magnitude_spec {D : ℕ} {f : (Fin D → ℝ) → Cart3}
    (a : base_representation D f) : ℝ :=
  Real.sqrt ((f a.point).x ^ 2 + (f a.point).y ^ 2 + (f a.point).z ^ 2)

end

/-- Claim C1: the claim states `magnitude()` returns the Euclidean norm of the
canonical cartesian point, in particular `1.0` on canonical point `(1,0,0)`.
The code instead returns `sqrt(0.0) = 0` there — its accumulation loop is
disabled — while the norm the spec intends is `1`; the two differ, so the code
contradicts the documented behaviour. -/
theorem C1_magnitude_is_not_euclidean_norm :
    unitX.magnitude = 0 ∧ magnitude_spec unitX = 1 ∧
      unitX.magnitude ≠ magnitude_spec unitX := by
  have h0 : unitX.magnitude = 0 := by
    simp [base_representation.magnitude]
  have h1 : magnitude_spec unitX = 1 := by
    have : ((cartesianToCanonical unitX.point).x ^ 2 +
        (cartesianToCanonical unitX.point).y ^ 2 +
        (cartesianToCanonical unitX.point).z ^ 2) = 1 := by
      simp [cartesianToCanonical, unitX]
    simp [magnitude_spec, this]
  exact ⟨h0, h1, by rw [h0, h1]; norm_num⟩

/-- Claim C2: for every representation, of any dimension and any coordinate
system, `magnitude()` returns zero: the accumulation loop is present only as
disabled commentary, so `result` stays `0.0` before `std::sqrt` is taken. -/
theorem C2_magnitude_always_zero :
    ∀ (D : ℕ) (f : (Fin D → ℝ) → Cart3) (a : base_representation D f),
      a.magnitude = 0 := by
  intro D f a
  simp [base_representation.magnitude]

/-- Claim C3: the claim states the unit vector of a non-zero representation
has `magnitude() == 1.0`; but `magnitude()` of every representation — the
normalized result included — is `0`, so on the non-zero input `(1,0,0)` the
returned vector's magnitude is `0`, not `1` (and the component-wise division
is by the zero magnitude). -/
theorem C3_unit_vector_magnitude_is_zero :
    (mkCartesian unitX.unit_vector).magnitude = 0 ∧
      (mkCartesian unitX.unit_vector).magnitude ≠ 1 := by
  have h0 : (mkCartesian unitX.unit_vector).magnitude = 0 := by
    simp [base_representation.magnitude]
  exact ⟨h0, by rw [h0]; norm_num⟩

/-- Claim C4: for all representations of any coordinate systems and dimension
counts, `a.dot(b) = b.dot(a)`: the dot product computed on the two canonical
cartesian vectors is commutative. -/
theorem C4_dot_comm :
    ∀ (D D' : ℕ) (f : (Fin D → ℝ) → Cart3) (g : (Fin D' → ℝ) → Cart3)
      (a : base_representation D f) (b : base_representation D' g),
      a.dot b = b.dot a := by
  intro D D' f g a b
  simp only [base_representation.dot, base_representation.get_point,
    dot_product]
  ring

/-- Claim C5: for all representations of any coordinate systems and dimension
counts, the canonical cartesian point from which `a.cross(b)` is constructed
is the component-wise additive inverse of the one from which `b.cross(a)` is
constructed. -/
theorem C5_cross_anticomm :
    ∀ (D D' : ℕ) (f : (Fin D → ℝ) → Cart3) (g : (Fin D' → ℝ) → Cart3)
      (a : base_representation D f) (b : base_representation D' g),
      (a.cross b).x = -(b.cross a).x ∧ (a.cross b).y = -(b.cross a).y ∧
        (a.cross b).z = -(b.cross a).z := by
  intro D D' f g a b
  refine ⟨?_, ?_, ?_⟩ <;>
    (simp only [base_representation.cross, base_representation.get_point,
      cross_product]; ring)

/-- Claim C6: the canonical cartesian point from which `a.sum(b)` is
constructed is the component-wise sum of the two operands' canonical cartesian
points, and materializing it as a cartesian representation exposes exactly
that sum; concretely, canonical `(1,0,0)` plus canonical `(0,1,0)` yields
canonical `(1,1,0)`. -/
theorem C6_sum_componentwise :
    (∀ (D D' : ℕ) (f : (Fin D → ℝ) → Cart3) (g : (Fin D' → ℝ) → Cart3)
      (a : base_representation D f) (b : base_representation D' g),
      (mkCartesian (a.sum b)).get_point =
        ![(f a.get_point).x + (g b.get_point).x,
          (f a.get_point).y + (g b.get_point).y,
          (f a.get_point).z + (g b.get_point).z]) ∧
      unitX.sum unitY = ⟨1, 1, 0⟩ := by
  constructor
  · intro D D' f g a b
    simp [mkCartesian, base_representation.get_point, base_representation.sum]
  · simp only [base_representation.sum, base_representation.get_point, unitX,
      unitY, cartesianToCanonical]
    ext <;> norm_num

/-- Claim C7: the canonical cartesian point from which `a.mean(b)` is
constructed is the component-wise average of the two canonical cartesian
vectors — each canonical component of `a.sum(b)`, halved. -/
theorem C7_mean_is_half_sum :
    ∀ (D D' : ℕ) (f : (Fin D → ℝ) → Cart3) (g : (Fin D' → ℝ) → Cart3)
      (a : base_representation D f) (b : base_representation D' g),
      a.mean b = ⟨(a.sum b).x / 2, (a.sum b).y / 2, (a.sum b).z / 2⟩ := by
  intro D D' f g a b
  simp [base_representation.mean, base_representation.sum]

/-- Claim C8: `to_representation` performs no canonical computation — the
target type is constructed directly from the native point — and constructing
a value of the operand's own type from that identity pass reproduces the
operand exactly. -/
theorem C8_to_representation_identity :
    ∀ (D : ℕ) (f : (Fin D → ℝ) → Cart3) (a : base_representation D f),
      a.to_representation = a.get_point ∧
        (⟨a.to_representation⟩ : base_representation D f) = a := by
  intro D f a
  cases a
  exact ⟨rfl, rfl⟩

/-- Claim C10: `a.sum(b) = b.sum(a)`: the canonical cartesian point handed to
the result constructor is identical in the two calls, across operands of
different native systems and dimensions. -/
theorem C10_sum_comm :
    ∀ (D D' : ℕ) (f : (Fin D → ℝ) → Cart3) (g : (Fin D' → ℝ) → Cart3)
      (a : base_representation D f) (b : base_representation D' g),
      a.sum b = b.sum a := by
  intro D D' f g a b
  simp only [base_representation.sum, base_representation.get_point]
  ext <;> ring

end Astronomy
